import Mathlib

/- Shallow embedding of the authentication middleware of the repository
   (src/middleware/auth.ts, compiled to lib/middleware/auth.js, plus the
   Firebase-Functions variant of authenticateFirebaseUser) and of the parts
   of the Mongoose User model (src/models/User.ts) that the middleware uses.

   The JavaScript string primitives used by the middleware
   (String.prototype.split, startsWith, toLowerCase, includes) are modelled
   character-exactly on List Char.  The collaborators (jsonwebtoken.verify,
   firebase-admin auth.verifyIdToken, the User Mongo collection) are modelled
   as an explicit environment plus an explicit store state; a thrown
   JavaScript error is an Except.error value, and every collaborator call is
   recorded in a trace so that claims of the form "collaborator X is never
   invoked" are statable. -/

/-- Boolean test that the second list starts with the first list; this models
JavaScript String.prototype.startsWith on character lists (the receiver is
the second argument). -/
def listLeadsWith : List Char → List Char → Bool
  | [], _ => true
  | _ :: _, [] => false
  | a :: as, b :: bs => a == b && listLeadsWith as bs

/-- Fuelled worker for the splitter below.  Scans left to right; whenever the
(nonempty) separator occurs, the current segment ends and scanning resumes
after the separator, exactly as JavaScript String.prototype.split does for a
nonempty string separator.  The fuel only serves to make the recursion
structural; any fuel of at least the length of the scanned list gives the
fixed answer. -/
def jsSplitCharsAux (sep : List Char) : Nat → List Char → List (List Char)
  | 0, s => [s]
  | fuel + 1, s =>
    if !sep.isEmpty && listLeadsWith sep s then
      [] :: jsSplitCharsAux sep fuel (s.drop sep.length)
    else
      match s with
      | [] => [[]]
      | c :: rest =>
        match jsSplitCharsAux sep fuel rest with
        | [] => [[c]]
        | seg :: segs => (c :: seg) :: segs

/-- Split a character list on a nonempty separator, as JavaScript
String.prototype.split (the empty-separator behaviour of JavaScript, split
into single characters, is not modelled; the middleware only splits on the
literal Bearer-space separator, which is nonempty). -/
def jsSplitChars (sep s : List Char) : List (List Char) :=
  jsSplitCharsAux sep s.length s

/-- Model of s.split(sep) for a nonempty string separator. -/
def jsSplit (s sep : String) : List String :=
  (jsSplitChars sep.data s.data).map String.mk

/-- Model of s.startsWith(pre). -/
def jsStartsWith (s pre : String) : Bool :=
  listLeadsWith pre.data s.data

/-- Does the second list contain the first as a contiguous segment? -/
def listContainsSeg (sub : List Char) : List Char → Bool
  | [] => listLeadsWith sub []
  | c :: rest => listLeadsWith sub (c :: rest) || listContainsSeg sub rest

/-- Model of s.includes(sub). -/
def jsIncludes (s sub : String) : Bool :=
  listContainsSeg sub.data s.data

/-- Model of s.toLowerCase(). -/
def jsToLowerCase (s : String) : String :=
  String.mk (s.data.map Char.toLower)

/-- Role enumeration of the Mongoose User schema: the values user and admin
(UserRole in src/models/User.ts; default user). -/
inductive UserRole where
  | user
  | admin
deriving DecidableEq, Repr

/-- One document of the User collection, restricted to the fields the
authentication middleware reads or writes (uid, email, displayName, photoURL,
role, isActive, lastLoginAt).  The schema marks email required, but the
middleware itself passes through the possibly absent email claim of a decoded
Firebase token, so email is modelled as optional; dates are modelled as Nat
timestamps.  The nested profile block and the automatic createdAt/updatedAt
timestamps are never touched by the middleware and are omitted. -/
structure UserDoc where
  uid : String
  email : Option String
  displayName : Option String
  photoURL : Option String
  role : UserRole
  isActive : Bool
  lastLoginAt : Option Nat
deriving DecidableEq, Repr

/-- Payload of a locally issued JWT access token (AccessTokenPayload: the
object signed in the token route, plus the exp/iat claims jsonwebtoken adds).
The type field is the token-kind discriminator checked by the middleware. -/
structure AccessTokenPayload where
  uid : String
  email : String
  role : String
  type : String
  exp : Nat
  iat : Nat
deriving DecidableEq, Repr

/-- Decoded Firebase ID token, restricted to the claims the middleware reads
(uid, email, name, picture); email, name and picture may be absent. -/
structure DecodedIdToken where
  uid : String
  email : Option String
  name : Option String
  picture : Option String
deriving DecidableEq, Repr

/-- A thrown JavaScript Error, reduced to its message (the middleware only
ever inspects the message text of a caught error). -/
structure JsError where
  message : String
deriving DecidableEq, Repr

/-- The mock Firebase-token object the local-JWT branch of authenticateToken
builds for compatibility, with exactly the fields assigned in the source. -/
structure MockFirebaseToken where
  uid : String
  email : String
  name : Option String
  picture : Option String
  aud : String
  auth_time : Nat
  exp : Nat
  sign_in_provider : String
  iat : Nat
  iss : String
  sub : String
deriving DecidableEq, Repr

/-- The mock Firebase token object built at the local-JWT success branch. -/
def mkMockFirebaseToken (decoded : AccessTokenPayload) (mongoUser : UserDoc) :
    MockFirebaseToken :=
  { uid := decoded.uid
    email := decoded.email
    name := mongoUser.displayName
    picture := mongoUser.photoURL
    aud := ""
    auth_time := 0
    exp := decoded.exp
    sign_in_provider := "custom"
    iat := decoded.iat
    iss := ""
    sub := decoded.uid }

/-- The value attached to req.user: either the mock object built by the
local-JWT branch or a decoded Firebase ID token. -/
inductive AttachedUser where
  | mock (t : MockFirebaseToken)
  | firebase (t : DecodedIdToken)
deriving DecidableEq, Repr

/-- What a middleware invocation does to the request: send an error response
(status, error code, message), call next() with the given req.user and
req.mongoUser attached (the Functions variant attaches no mongoUser), or
return without responding and without calling next() — the code path at the
end of authenticateToken reached when the JWT verifies but the type
discriminator does not match. -/
inductive Outcome where
  | respond (status : Nat) (error : String) (message : String)
  | proceed (user : AttachedUser) (mongoUser : Option UserDoc)
  | noResponse
deriving DecidableEq, Repr

/-- One collaborator call, for the call trace. -/
inductive CallEv where
  | jwtVerifyCall (token : String)
  | verifyIdTokenCall (token : String)
  | findOneCall (uid : String)
  | saveCall (uid : String)
deriving DecidableEq, Repr

/-- The User collection state: the list of stored documents. -/
structure Store where
  docs : List UserDoc
deriving DecidableEq, Repr

/-- Result of running a middleware: the request outcome, the store state
afterwards, and the trace of collaborator calls made. -/
structure RunResult where
  outcome : Outcome
  store : Store
  calls : List CallEv
deriving DecidableEq, Repr

/-- Environment of collaborators: jwt.verify with the configured secret,
auth.verifyIdToken, the current time, and optional fault injection for the
store calls (a some value makes the corresponding store call throw that
error, modelling store unavailability). -/
structure Env where
  jwtVerify : String → Except JsError AccessTokenPayload
  verifyIdToken : String → Except JsError DecodedIdToken
  findOneFault : Option JsError
  saveFault : Option JsError
  now : Nat

/-- The duplicate-key rejection the unique index on uid produces. -/
def dupKeyError : JsError :=
  { message := "E11000 duplicate key error collection users index uid" }

/-- Model of User.findOne with filter uid and isActive true: the first stored
document with that uid whose isActive flag is set; throws when the fault is
injected. -/
def storeFindOne (env : Env) (store : Store) (uid : String) :
    Except JsError (Option UserDoc) :=
  match env.findOneFault with
  | some e => .error e
  | none => .ok (store.docs.find? (fun d => d.uid == uid && d.isActive))

/-- Model of saving a freshly constructed User document: rejects with the
duplicate-key error when a document with the same uid already exists (the
schema declares a unique index on uid); throws when the save fault is
injected. -/
def storeSaveNew (env : Env) (store : Store) (u : UserDoc) :
    Except JsError Store :=
  match env.saveFault with
  | some e => .error e
  | none =>
    if store.docs.any (fun d => d.uid == u.uid) then .error dupKeyError
    else .ok { docs := store.docs ++ [u] }

/-- Model of the updateLastLogin instance method of the User model: set
lastLoginAt to now and save, replacing the stored document with the same uid;
throws when the save fault is injected. -/
def updateLastLogin (env : Env) (store : Store) (u : UserDoc) :
    Except JsError (UserDoc × Store) :=
  let updated := { u with lastLoginAt := some env.now }
  match env.saveFault with
  | some e => .error e
  | none =>
    .ok (updated,
      { docs := store.docs.map (fun d => if d.uid == u.uid then updated else d) })

/-- The new User({...}) constructor call of the find-or-create branch: a
fresh document built from the decoded Firebase token claims, with role user,
isActive true and lastLoginAt now. -/
def newUserDoc (env : Env) (decodedToken : DecodedIdToken) : UserDoc :=
  { uid := decodedToken.uid
    email := decodedToken.email
    displayName := decodedToken.name
    photoURL := decodedToken.picture
    role := UserRole.user
    isActive := true
    lastLoginAt := some env.now }

/-- Body of the catch (jwtError) block of authenticateToken: verify the raw
credential as a Firebase ID token, find or create the Mongo user, attach and
call next(); any throw inside this block is caught by catch (firebaseError),
which responds 401 INVALID_TOKEN.  It is entered both when jwt.verify throws
and when a store call throws inside the first try block. -/
def authenticateTokenFirebaseFallback (env : Env) (store : Store)
    (token : String) (calls : List CallEv) : RunResult :=
  match env.verifyIdToken token with
  | .error _firebaseError =>
    { outcome := .respond 401 "INVALID_TOKEN" "Invalid or expired token"
      store := store
      calls := calls ++ [.verifyIdTokenCall token] }
  | .ok decodedToken =>
    match storeFindOne env store decodedToken.uid with
    | .error _e =>
      { outcome := .respond 401 "INVALID_TOKEN" "Invalid or expired token"
        store := store
        calls := calls ++ [.verifyIdTokenCall token, .findOneCall decodedToken.uid] }
    | .ok none =>
      match storeSaveNew env store (newUserDoc env decodedToken) with
      | .error _e =>
        { outcome := .respond 401 "INVALID_TOKEN" "Invalid or expired token"
          store := store
          calls := calls ++ [.verifyIdTokenCall token, .findOneCall decodedToken.uid,
            .saveCall decodedToken.uid] }
      | .ok store2 =>
        { outcome := .proceed (.firebase decodedToken) (some (newUserDoc env decodedToken))
          store := store2
          calls := calls ++ [.verifyIdTokenCall token, .findOneCall decodedToken.uid,
            .saveCall decodedToken.uid] }
    | .ok (some mongoUser) =>
      match updateLastLogin env store mongoUser with
      | .error _e =>
        { outcome := .respond 401 "INVALID_TOKEN" "Invalid or expired token"
          store := store
          calls := calls ++ [.verifyIdTokenCall token, .findOneCall decodedToken.uid,
            .saveCall mongoUser.uid] }
      | .ok (updated, store2) =>
        { outcome := .proceed (.firebase decodedToken) (some updated)
          store := store2
          calls := calls ++ [.verifyIdTokenCall token, .findOneCall decodedToken.uid,
            .saveCall mongoUser.uid] }

/-- The dual-mode authentication middleware authenticateToken of
src/middleware/auth.ts.  The request is represented by its authorization
header (none when the header is absent).  Faithful translation notes: the
token is extracted as authHeader.split(Bearer-space)[1], which is the segment
between the first two separator occurrences, and an undefined or empty result
is rejected (JavaScript truthiness); a successful jwt.verify with a type
discriminator other than access_token falls off the end of the try/catch —
the Firebase path lives only inside catch (jwtError) — so the function
returns without responding and without calling next(); a store throw inside
the first try block is caught by catch (jwtError) and so also enters the
Firebase fallback. -/
def authenticateToken (env : Env) (store : Store) (authHeader : Option String) :
    RunResult :=
  match authHeader with
  | none =>
    { outcome := .respond 401 "UNAUTHORIZED"
        "Authorization header with Bearer token is required"
      store := store
      calls := [] }
  | some h =>
    if !jsStartsWith h "Bearer " then
      { outcome := .respond 401 "UNAUTHORIZED"
          "Authorization header with Bearer token is required"
        store := store
        calls := [] }
    else
      match (jsSplit h "Bearer ")[1]? with
      | none =>
        { outcome := .respond 401 "INVALID_TOKEN"
            "Token is required in Authorization header"
          store := store
          calls := [] }
      | some token =>
        if token == "" then
          { outcome := .respond 401 "INVALID_TOKEN"
              "Token is required in Authorization header"
            store := store
            calls := [] }
        else
          match env.jwtVerify token with
          | .error _jwtError =>
            authenticateTokenFirebaseFallback env store token [.jwtVerifyCall token]
          | .ok decoded =>
            if decoded.type == "access_token" then
              match storeFindOne env store decoded.uid with
              | .error _e =>
                authenticateTokenFirebaseFallback env store token
                  [.jwtVerifyCall token, .findOneCall decoded.uid]
              | .ok none =>
                { outcome := .respond 401 "USER_NOT_FOUND"
                    "User not found or inactive"
                  store := store
                  calls := [.jwtVerifyCall token, .findOneCall decoded.uid] }
              | .ok (some mongoUser) =>
                { outcome := .proceed (.mock (mkMockFirebaseToken decoded mongoUser))
                    (some mongoUser)
                  store := store
                  calls := [.jwtVerifyCall token, .findOneCall decoded.uid] }
            else
              { outcome := .noResponse
                store := store
                calls := [.jwtVerifyCall token] }

/-- The catch block of authenticateFirebaseUser (both variants): classify the
caught error by its lowercased message text — substring expired gives
TOKEN_EXPIRED, else substring invalid gives INVALID_TOKEN, else the catch-all
AUTHENTICATION_FAILED. -/
def classifyAuthError (e : JsError) : Outcome :=
  if jsIncludes (jsToLowerCase e.message) "expired" then
    .respond 401 "TOKEN_EXPIRED" "ID token has expired"
  else if jsIncludes (jsToLowerCase e.message) "invalid" then
    .respond 401 "INVALID_TOKEN" "Invalid ID token provided"
  else
    .respond 401 "AUTHENTICATION_FAILED" "Failed to authenticate user"

/-- The legacy Express-API authenticateFirebaseUser of src/middleware/auth.ts:
same header parsing as authenticateToken, then Firebase verification and the
same find-or-create Account synchronization, all inside one try whose catch
classifies the error text (expired / invalid / catch-all). -/
def authenticateFirebaseUser (env : Env) (store : Store)
    (authHeader : Option String) : RunResult :=
  match authHeader with
  | none =>
    { outcome := .respond 401 "UNAUTHORIZED"
        "Authorization header with Bearer token is required"
      store := store
      calls := [] }
  | some h =>
    if !jsStartsWith h "Bearer " then
      { outcome := .respond 401 "UNAUTHORIZED"
          "Authorization header with Bearer token is required"
        store := store
        calls := [] }
    else
      match (jsSplit h "Bearer ")[1]? with
      | none =>
        { outcome := .respond 401 "INVALID_TOKEN"
            "ID token is required in Authorization header"
          store := store
          calls := [] }
      | some idToken =>
        if idToken == "" then
          { outcome := .respond 401 "INVALID_TOKEN"
              "ID token is required in Authorization header"
            store := store
            calls := [] }
        else
          match env.verifyIdToken idToken with
          | .error e =>
            { outcome := classifyAuthError e
              store := store
              calls := [.verifyIdTokenCall idToken] }
          | .ok decodedToken =>
            match storeFindOne env store decodedToken.uid with
            | .error e =>
              { outcome := classifyAuthError e
                store := store
                calls := [.verifyIdTokenCall idToken, .findOneCall decodedToken.uid] }
            | .ok none =>
              match storeSaveNew env store (newUserDoc env decodedToken) with
              | .error e =>
                { outcome := classifyAuthError e
                  store := store
                  calls := [.verifyIdTokenCall idToken, .findOneCall decodedToken.uid,
                    .saveCall decodedToken.uid] }
              | .ok store2 =>
                { outcome := .proceed (.firebase decodedToken) (some (newUserDoc env decodedToken))
                  store := store2
                  calls := [.verifyIdTokenCall idToken, .findOneCall decodedToken.uid,
                    .saveCall decodedToken.uid] }
            | .ok (some mongoUser) =>
              match updateLastLogin env store mongoUser with
              | .error e =>
                { outcome := classifyAuthError e
                  store := store
                  calls := [.verifyIdTokenCall idToken, .findOneCall decodedToken.uid,
                    .saveCall mongoUser.uid] }
              | .ok (updated, store2) =>
                { outcome := .proceed (.firebase decodedToken) (some updated)
                  store := store2
                  calls := [.verifyIdTokenCall idToken, .findOneCall decodedToken.uid,
                    .saveCall mongoUser.uid] }

/-- The Firebase-Functions-API variant of authenticateFirebaseUser: same
header parsing, Firebase verification, attach the decoded token and call
next(); it has no User-store interaction at all, and the same catch
classification.  It is given the store argument to make the no-store-effect
property statable; its definition never touches it. -/
def authenticateFirebaseUserFunctions (env : Env) (store : Store)
    (authHeader : Option String) : RunResult :=
  match authHeader with
  | none =>
    { outcome := .respond 401 "UNAUTHORIZED"
        "Authorization header with Bearer token is required"
      store := store
      calls := [] }
  | some h =>
    if !jsStartsWith h "Bearer " then
      { outcome := .respond 401 "UNAUTHORIZED"
          "Authorization header with Bearer token is required"
        store := store
        calls := [] }
    else
      match (jsSplit h "Bearer ")[1]? with
      | none =>
        { outcome := .respond 401 "INVALID_TOKEN"
            "ID token is required in Authorization header"
          store := store
          calls := [] }
      | some idToken =>
        if idToken == "" then
          { outcome := .respond 401 "INVALID_TOKEN"
              "ID token is required in Authorization header"
            store := store
            calls := [] }
        else
          match env.verifyIdToken idToken with
          | .error e =>
            { outcome := classifyAuthError e
              store := store
              calls := [.verifyIdTokenCall idToken] }
          | .ok decodedToken =>
            { outcome := .proceed (.firebase decodedToken) none
              store := store
              calls := [.verifyIdTokenCall idToken] }

/-- Outcome of an authorization gate: an error response or next(). -/
inductive GateOutcome where
  | respond (status : Nat) (error : String) (message : String)
  | next
deriving DecidableEq, Repr

/-- The isAdmin instance method of the User model. -/
def UserDoc.isAdmin (u : UserDoc) : Bool :=
  u.role == UserRole.admin

/-- The requireActiveUser gate, acting on the req.mongoUser attached by a
preceding authentication middleware (none when nothing is attached). -/
def requireActiveUser (mongoUser : Option UserDoc) : GateOutcome :=
  match mongoUser with
  | none => .respond 401 "UNAUTHORIZED" "User authentication required"
  | some u =>
    if !u.isActive then
      .respond 403 "ACCOUNT_DISABLED" "User account is disabled"
    else
      .next

/-- The requireAdmin gate, acting on the attached req.mongoUser. -/
def requireAdmin (mongoUser : Option UserDoc) : GateOutcome :=
  match mongoUser with
  | none => .respond 401 "UNAUTHORIZED" "User authentication required"
  | some u =>
    if !u.isAdmin then
      .respond 403 "FORBIDDEN" "Admin access required"
    else
      .next

/-- A leading segment test always succeeds on an extension of the tested
list. -/
theorem listLeadsWith_append_self (p t : List Char) : listLeadsWith p (p ++ t) = true := by
  induction p with
  | nil => rfl
  | cons a as ih => simp [listLeadsWith, ih]

/-- Splitting a list that starts with the (nonempty) separator yields an
empty first segment followed by the split of the remainder. -/
theorem jsSplitCharsAux_append_of_ne (sep t : List Char) (fuel : Nat)
    (hsep : sep.isEmpty = false) :
    jsSplitCharsAux sep (fuel + 1) (sep ++ t) = [] :: jsSplitCharsAux sep fuel t := by
  simp [jsSplitCharsAux, hsep, listLeadsWith_append_self, List.drop_left]

/-- The character data of a string append. -/
theorem str_data_append (s t : String) : (s ++ t).data = s.data ++ t.data := by
  cases s; cases t; rfl

/-- The outcomes the dual middleware authenticateToken can produce: the four
typed error responses written in its source, a successful proceed, or the
silent no-response fallthrough.  In particular the AUTHENTICATION_FAILED
response of the outer catch is not among them: every throwing operation of
the function body sits inside one of the two inner try blocks. -/
def typedOutcome : Outcome → Bool
  | .respond 401 "UNAUTHORIZED" "Authorization header with Bearer token is required" => true
  | .respond 401 "INVALID_TOKEN" "Token is required in Authorization header" => true
  | .respond 401 "INVALID_TOKEN" "Invalid or expired token" => true
  | .respond 401 "USER_NOT_FOUND" "User not found or inactive" => true
  | .proceed _ _ => true
  | .noResponse => true
  | _ => false

/-- Recognizer of the AUTHENTICATION_FAILED error response. -/
def isAuthenticationFailedResponse : Outcome → Bool
  | .respond _ "AUTHENTICATION_FAILED" _ => true
  | _ => false

/-- The Firebase fallback block only ever responds INVALID_TOKEN or
proceeds. -/
theorem fallback_typed (env : Env) (store : Store) (token : String) (calls : List CallEv) :
    typedOutcome (authenticateTokenFirebaseFallback env store token calls).outcome = true := by
  rcases henv : env.verifyIdToken token with e | d
  · simp [authenticateTokenFirebaseFallback, henv, typedOutcome]
  · rcases hfo : storeFindOne env store d.uid with e | o
    · simp [authenticateTokenFirebaseFallback, henv, hfo, typedOutcome]
    · rcases o with _ | mu
      · rcases hs : storeSaveNew env store (newUserDoc env d) with e | st2 <;>
          simp [authenticateTokenFirebaseFallback, henv, hfo, hs, typedOutcome]
      · rcases hu : updateLastLogin env store mu with e | p
        · simp [authenticateTokenFirebaseFallback, henv, hfo, hu, typedOutcome]
        · rcases p with ⟨updated, st2⟩
          simp [authenticateTokenFirebaseFallback, henv, hfo, hu, typedOutcome]

/-- The Firebase fallback block never produces the AUTHENTICATION_FAILED
response. -/
theorem fallback_not_auth_failed (env : Env) (store : Store) (token : String)
    (calls : List CallEv) :
    isAuthenticationFailedResponse
      (authenticateTokenFirebaseFallback env store token calls).outcome = false := by
  rcases henv : env.verifyIdToken token with e | d
  · simp [authenticateTokenFirebaseFallback, henv, isAuthenticationFailedResponse]
  · rcases hfo : storeFindOne env store d.uid with e | o
    · simp [authenticateTokenFirebaseFallback, henv, hfo, isAuthenticationFailedResponse]
    · rcases o with _ | mu
      · rcases hs : storeSaveNew env store (newUserDoc env d) with e | st2 <;>
          simp [authenticateTokenFirebaseFallback, henv, hfo, hs, isAuthenticationFailedResponse]
      · rcases hu : updateLastLogin env store mu with e | p
        · simp [authenticateTokenFirebaseFallback, henv, hfo, hu, isAuthenticationFailedResponse]
        · rcases p with ⟨updated, st2⟩
          simp [authenticateTokenFirebaseFallback, henv, hfo, hu, isAuthenticationFailedResponse]

/-- A document returned by the uid-with-isActive filter has its isActive
flag set. -/
theorem storeFindOne_active (env : Env) (store : Store) (uid : String) (u : UserDoc)
    (h : storeFindOne env store uid = .ok (some u)) : u.isActive = true := by
  unfold storeFindOne at h
  rcases hff : env.findOneFault with _ | e
  · rw [hff] at h
    simp at h
    have hp := List.find?_some h
    simp at hp
    exact hp.2
  · rw [hff] at h
    simp at h

/-- Any Mongo user the Firebase fallback block attaches to the request is
active: a found user passed the isActive filter and a created user is
constructed with isActive true. -/
theorem fallback_active (env : Env) (store : Store) (token : String) (calls : List CallEv)
    (u : AttachedUser) (mu : UserDoc)
    (hp : (authenticateTokenFirebaseFallback env store token calls).outcome
      = .proceed u (some mu)) :
    mu.isActive = true := by
  rcases henv : env.verifyIdToken token with e | d
  · simp [authenticateTokenFirebaseFallback, henv] at hp
  · rcases hfo : storeFindOne env store d.uid with e | o
    · simp [authenticateTokenFirebaseFallback, henv, hfo] at hp
    · rcases o with _ | found
      · rcases hs : storeSaveNew env store (newUserDoc env d) with e | st2 <;>
          simp [authenticateTokenFirebaseFallback, henv, hfo, hs] at hp
        rw [← hp.2]
        rfl
      · rcases hu : updateLastLogin env store found with e | p
        · simp [authenticateTokenFirebaseFallback, henv, hfo, hu] at hp
        · rcases p with ⟨updated, st2⟩
          simp [authenticateTokenFirebaseFallback, henv, hfo, hu] at hp
          have hact := storeFindOne_active env store d.uid found hfo
          have hupd : updated = { found with lastLoginAt := some env.now } := by
            unfold updateLastLogin at hu
            rcases hsf : env.saveFault with _ | e <;> rw [hsf] at hu <;> simp at hu
            exact hu.1.symm
          rw [← hp.2, hupd]
          simpa using hact

/-- The empty User collection. -/
def emptyStore : Store := { docs := [] }

/-- Environment in which the credential verifies as a locally signed JWT
whose type discriminator is refresh_token rather than access_token, while
the external verifier would accept the same credential. -/
def envTypeMismatch : Env :=
  { jwtVerify := fun _ => .ok
      { uid := "u1", email := "u1@example.com", role := "user"
        type := "refresh_token", exp := 9999, iat := 1 }
    verifyIdToken := fun _ => .ok
      { uid := "u1", email := some "u1@example.com", name := some "User One"
        picture := none }
    findOneFault := none
    saveFault := none
    now := 100 }

/-- Claim C1: the claim states that a credential whose local-JWT verification
succeeds with a type discriminator other than access_token falls through to
the external verifyIdToken path and always produces an identity or an error.
The code does not do this: the external path lives only inside the catch of
the local verification, so a successful local verification with a mismatched
discriminator falls off the end of the try/catch — the middleware terminates
with no response, no next() call, and no external verification attempt.  This
theorem evaluates the middleware at such a credential: the outcome is the
silent no-response and the call trace contains only the local jwt.verify
call. -/
theorem C1_type_mismatch_no_response :
    authenticateToken envTypeMismatch emptyStore (some "Bearer tok1") =
      { outcome := .noResponse
        store := emptyStore
        calls := [.jwtVerifyCall "tok1"] } := by
  decide

/-- Claim C2: a credential that verifies as a local access token (the type
discriminator matches) whose subject id has no active Account record makes
authenticateToken respond 401 USER_NOT_FOUND; the call trace is exactly the
jwt.verify call and the store lookup, so the external identity provider is
never invoked, and the store is unchanged. -/
theorem C2_local_user_not_found (env : Env) (store : Store) (h token : String)
    (payload : AccessTokenPayload)
    (hstart : jsStartsWith h "Bearer " = true)
    (hget : (jsSplit h "Bearer ")[1]? = some token)
    (htok : (token == "") = false)
    (hjwt : env.jwtVerify token = .ok payload)
    (htype : payload.type = "access_token")
    (hfind : storeFindOne env store payload.uid = .ok none) :
    authenticateToken env store (some h) =
      { outcome := .respond 401 "USER_NOT_FOUND" "User not found or inactive"
        store := store
        calls := [.jwtVerifyCall token, .findOneCall payload.uid] } := by
  simp only [authenticateToken, hstart, hget, htok, hjwt, htype, hfind]
  simp

/-- Payload of a structurally valid local access token for a subject id with
no stored Account. -/
def payloadGhost : AccessTokenPayload :=
  { uid := "ghost", email := "ghost@example.com", role := "user"
    type := "access_token", exp := 9999, iat := 1 }

/-- Environment whose jwt.verify accepts every credential as the ghost
access token. -/
def envGhost : Env :=
  { jwtVerify := fun _ => .ok payloadGhost
    verifyIdToken := fun _ => .error { message := "unused" }
    findOneFault := none
    saveFault := none
    now := 7 }

/-- Witness for claim C2 at a concrete credential and the empty store. -/
theorem C2_witness :
    authenticateToken envGhost emptyStore (some "Bearer anytok") =
      { outcome := .respond 401 "USER_NOT_FOUND" "User not found or inactive"
        store := emptyStore
        calls := [.jwtVerifyCall "anytok", .findOneCall "ghost"] } :=
  C2_local_user_not_found envGhost emptyStore "Bearer anytok" "anytok" payloadGhost
    (by decide) (by decide) (by decide) rfl rfl rfl

/-- Claim C9: a header consisting of the Bearer prefix followed by a token
that itself begins with the Bearer prefix splits so that the extracted
credential — the segment between the first two occurrences of the separator —
is empty, and authenticateToken responds 401 INVALID_TOKEN without invoking
any collaborator (empty call trace), even though the remainder after the
first prefix is nonempty. -/
theorem C9_double_bearer_empty_token (env : Env) (store : Store) (rest : String) :
    authenticateToken env store (some ("Bearer " ++ ("Bearer " ++ rest))) =
      { outcome := .respond 401 "INVALID_TOKEN" "Token is required in Authorization header"
        store := store
        calls := [] } := by
  have hdata : ("Bearer " ++ ("Bearer " ++ rest)).data
      = "Bearer ".data ++ ("Bearer ".data ++ rest.data) := by
    rw [str_data_append, str_data_append]
  have h7 : ("Bearer ".data).length = 7 := by decide
  have hlen : ("Bearer " ++ ("Bearer " ++ rest)).data.length
      = ((12 + rest.data.length) + 1) + 1 := by
    rw [hdata]; simp [List.length_append, h7]; omega
  have hsep : ("Bearer ".data).isEmpty = false := by decide
  have hchars : jsSplitChars ("Bearer ".data) ("Bearer " ++ ("Bearer " ++ rest)).data
      = [] :: [] :: jsSplitCharsAux ("Bearer ".data) (12 + rest.data.length) rest.data := by
    rw [jsSplitChars, hlen, hdata,
      jsSplitCharsAux_append_of_ne _ _ _ hsep,
      jsSplitCharsAux_append_of_ne _ _ _ hsep]
  have hmk : String.mk [] = "" := by decide
  have hget : (jsSplit ("Bearer " ++ ("Bearer " ++ rest)) "Bearer ")[1]? = some "" := by
    rw [jsSplit, hchars]; simp [hmk]
  have hstart : jsStartsWith ("Bearer " ++ ("Bearer " ++ rest)) "Bearer " = true := by
    rw [jsStartsWith, hdata]; exact listLeadsWith_append_self _ _
  simp only [authenticateToken, hstart, hget]
  rfl

/-- Claim C10: every Mongo user a successful run of authenticateToken
attaches to the request has its isActive flag true — the local branch and the
external existing-user branch both look the user up under the isActive filter
and the external create branch constructs the user with isActive true — and
therefore requireActiveUser, run on the attached user, always calls next()
rather than taking its ACCOUNT_DISABLED branch. -/
theorem C10_attached_user_active (env : Env) (store : Store) (header : Option String)
    (u : AttachedUser) (mu : UserDoc)
    (hp : (authenticateToken env store header).outcome = .proceed u (some mu)) :
    mu.isActive = true ∧ requireActiveUser (some mu) = .next := by
  have hact : mu.isActive = true := by
    rcases header with _ | h
    · simp [authenticateToken] at hp
    · cases hsw : jsStartsWith h "Bearer " with
      | false => simp [authenticateToken, hsw] at hp
      | true =>
        rcases hget : (jsSplit h "Bearer ")[1]? with _ | token
        · simp [authenticateToken, hsw, hget] at hp
        · cases hemp : token == "" with
          | true => simp [authenticateToken, hsw, hget, hemp] at hp
          | false =>
            rcases hjwt : env.jwtVerify token with e | decoded
            · simp only [authenticateToken, hsw, hget, hemp, hjwt] at hp
              simp at hp
              exact fallback_active _ _ _ _ _ _ hp
            · cases htp : decoded.type == "access_token" with
              | false => simp [authenticateToken, hsw, hget, hemp, hjwt, htp] at hp
              | true =>
                rcases hfo : storeFindOne env store decoded.uid with e | o
                · simp only [authenticateToken, hsw, hget, hemp, hjwt, htp, hfo] at hp
                  simp at hp
                  exact fallback_active _ _ _ _ _ _ hp
                · rcases o with _ | found
                  · simp [authenticateToken, hsw, hget, hemp, hjwt, htp, hfo] at hp
                  · simp [authenticateToken, hsw, hget, hemp, hjwt, htp, hfo] at hp
                    rw [← hp.2]
                    exact storeFindOne_active env store decoded.uid found hfo
  exact ⟨hact, by simp [requireActiveUser, hact]⟩

/-- An active stored user for the concrete witness runs. -/
def docAlice : UserDoc :=
  { uid := "alice", email := some "alice@example.com"
    displayName := some "Alice", photoURL := some "alice.png"
    role := UserRole.user, isActive := true, lastLoginAt := some 1 }

/-- A store holding only the active user above. -/
def storeAlice : Store := { docs := [docAlice] }

/-- Payload of a local access token for the stored active user. -/
def payloadAlice : AccessTokenPayload :=
  { uid := "alice", email := "alice@example.com", role := "user"
    type := "access_token", exp := 9999, iat := 1 }

/-- Environment whose jwt.verify accepts every credential as the access
token of the stored active user. -/
def envAlice : Env :=
  { jwtVerify := fun _ => .ok payloadAlice
    verifyIdToken := fun _ => .error { message := "unused" }
    findOneFault := none
    saveFault := none
    now := 7 }

/-- Witness for claim C10 at a concrete successful local-token run. -/
theorem C10_witness :
    docAlice.isActive = true ∧ requireActiveUser (some docAlice) = .next :=
  C10_attached_user_active envAlice storeAlice (some "Bearer tok")
    (.mock (mkMockFirebaseToken payloadAlice docAlice)) docAlice (by decide)

/-- Environment in which local verification fails and the external verifier
throws an error whose message contains the substring expired. -/
def envExpiredExternal : Env :=
  { jwtVerify := fun _ => .error { message := "jwt malformed" }
    verifyIdToken := fun _ => .error { message := "Firebase ID token has expired" }
    findOneFault := none
    saveFault := none
    now := 100 }

/-- Counterexample to claim C3: with local verification failing and the
external verifier throwing an error whose message contains expired, the dual
middleware responds 401 INVALID_TOKEN — its catch block returns INVALID_TOKEN
unconditionally — and not the TOKEN_EXPIRED response the claim predicts. -/
theorem C3_counterexample :
    authenticateToken envExpiredExternal emptyStore (some "Bearer tok1") =
      { outcome := .respond 401 "INVALID_TOKEN" "Invalid or expired token"
        store := emptyStore
        calls := [.jwtVerifyCall "tok1", .verifyIdTokenCall "tok1"] }
    ∧ (authenticateToken envExpiredExternal emptyStore (some "Bearer tok1")).outcome
      ≠ .respond 401 "TOKEN_EXPIRED" "ID token has expired" := by
  decide

/-- Claim C3 (amended): when local-JWT verification fails and the external
verification call throws, authenticateToken responds 401 INVALID_TOKEN
regardless of the thrown message text — for expired messages, invalid
messages, and any other message alike — and performs no Account mutation
(the store is returned unchanged and no store call appears in the trace);
the expired/invalid substring classification exists only in the legacy
authenticateFirebaseUser, not in this middleware. -/
theorem C3_amended_invalid_token_catch_all (env : Env) (store : Store)
    (h token : String) (jwtErr e : JsError)
    (hstart : jsStartsWith h "Bearer " = true)
    (hget : (jsSplit h "Bearer ")[1]? = some token)
    (htok : (token == "") = false)
    (hjwt : env.jwtVerify token = .error jwtErr)
    (hver : env.verifyIdToken token = .error e) :
    authenticateToken env store (some h) =
      { outcome := .respond 401 "INVALID_TOKEN" "Invalid or expired token"
        store := store
        calls := [.jwtVerifyCall token, .verifyIdTokenCall token] } := by
  simp only [authenticateToken, hstart, hget, htok, hjwt]
  simp [authenticateTokenFirebaseFallback, hver]

/-- Witness for the amended claim C3 at a concrete expired-message run. -/
theorem C3_witness :
    authenticateToken envExpiredExternal emptyStore (some "Bearer tok1") =
      { outcome := .respond 401 "INVALID_TOKEN" "Invalid or expired token"
        store := emptyStore
        calls := [.jwtVerifyCall "tok1", .verifyIdTokenCall "tok1"] } :=
  C3_amended_invalid_token_catch_all envExpiredExternal emptyStore "Bearer tok1" "tok1"
    { message := "jwt malformed" } { message := "Firebase ID token has expired" }
    (by decide) (by decide) (by decide) rfl rfl

/-- Environment in which local verification fails, the external verifier
accepts the credential, and the user store is unavailable: every findOne
call throws an availability error. -/
def envStoreDown : Env :=
  { jwtVerify := fun _ => .error { message := "jwt malformed" }
    verifyIdToken := fun _ => .ok
      { uid := "u1", email := some "u1@example.com", name := some "User One"
        picture := none }
    findOneFault := some { message := "MongoNetworkError: connection timed out" }
    saveFault := none
    now := 100 }

/-- Counterexample to claim C4: when the Account store throws an availability
error during resolution (here at the findOne of the external path), the
middleware responds 401 INVALID_TOKEN — the throw is caught by the inner
catch of the external path — and not the AUTHENTICATION_FAILED response the
claim predicts. -/
theorem C4_counterexample :
    authenticateToken envStoreDown emptyStore (some "Bearer tok1") =
      { outcome := .respond 401 "INVALID_TOKEN" "Invalid or expired token"
        store := emptyStore
        calls := [.jwtVerifyCall "tok1", .verifyIdTokenCall "tok1", .findOneCall "u1"] }
    ∧ isAuthenticationFailedResponse
        (authenticateToken envStoreDown emptyStore (some "Bearer tok1")).outcome = false := by
  decide

/-- Claim C4 (amended): every exception raised by a collaborator during
resolution — in particular any store findOne or save throw — is caught
inside authenticateToken and converted to one of its typed responses, so no
raw exception or store error ever reaches the caller; but store errors are
caught by the two inner token catches and surface as 401 INVALID_TOKEN, and
the outer-catch response AUTHENTICATION_FAILED is never produced on any
input, because every throwing operation of the body sits inside an inner
try block.  Stated for every environment, store state and header, faulty
store behaviour included. -/
theorem C4_amended_typed_outcomes (env : Env) (store : Store) (header : Option String) :
    typedOutcome (authenticateToken env store header).outcome = true
    ∧ isAuthenticationFailedResponse
        (authenticateToken env store header).outcome = false := by
  rcases header with _ | h
  · simp [authenticateToken, typedOutcome, isAuthenticationFailedResponse]
  · cases hsw : jsStartsWith h "Bearer " with
    | false => simp [authenticateToken, hsw, typedOutcome, isAuthenticationFailedResponse]
    | true =>
      rcases hget : (jsSplit h "Bearer ")[1]? with _ | token
      · simp [authenticateToken, hsw, hget, typedOutcome, isAuthenticationFailedResponse]
      · cases hemp : token == "" with
        | true =>
          simp [authenticateToken, hsw, hget, hemp, typedOutcome,
            isAuthenticationFailedResponse]
        | false =>
          rcases hjwt : env.jwtVerify token with e | decoded
          · refine ⟨?_, ?_⟩ <;> simp only [authenticateToken, hsw, hget, hemp, hjwt] <;> simp
            · exact fallback_typed _ _ _ _
            · exact fallback_not_auth_failed _ _ _ _
          · cases htp : decoded.type == "access_token" with
            | false =>
              simp [authenticateToken, hsw, hget, hemp, hjwt, htp, typedOutcome,
                isAuthenticationFailedResponse]
            | true =>
              rcases hfo : storeFindOne env store decoded.uid with e | o
              · refine ⟨?_, ?_⟩ <;>
                  simp only [authenticateToken, hsw, hget, hemp, hjwt, htp, hfo] <;> simp
                · exact fallback_typed _ _ _ _
                · exact fallback_not_auth_failed _ _ _ _
              · rcases o with _ | found <;>
                  simp [authenticateToken, hsw, hget, hemp, hjwt, htp, hfo, typedOutcome,
                    isAuthenticationFailedResponse]

/-- A stored active user whose email, display name and avatar differ from
the fresh external claims below. -/
def docOld : UserDoc :=
  { uid := "u1", email := some "old@example.com"
    displayName := some "Old Name", photoURL := some "old.png"
    role := UserRole.user, isActive := true, lastLoginAt := some 5 }

/-- A store holding only that user. -/
def storeOld : Store := { docs := [docOld] }

/-- The fresh external claims for the stored subject id u1: new nonempty
email, display name and avatar. -/
def decodedFresh : DecodedIdToken :=
  { uid := "u1"
    email := some "new@example.com"
    name := some "New Name"
    picture := some "new.png" }

/-- Environment in which local verification fails and the external verifier
asserts the fresh claims above for the subject id u1. -/
def envFresh : Env :=
  { jwtVerify := fun _ => .error { message := "jwt malformed" }
    verifyIdToken := fun _ => .ok decodedFresh
    findOneFault := none
    saveFault := none
    now := 111 }

/-- Counterexample to claim C5: an external-token login for an existing
Account with fresh nonempty email, display-name and avatar claims persists
the old stored values unchanged — only lastLoginAt is set to now — instead
of overwriting them with the fresh claims as the claim predicts. -/
theorem C5_counterexample :
    authenticateToken envFresh storeOld (some "Bearer ext1") =
      { outcome := .proceed (.firebase decodedFresh)
          (some { docOld with lastLoginAt := some 111 })
        store := { docs := [{ docOld with lastLoginAt := some 111 }] }
        calls := [.jwtVerifyCall "ext1", .verifyIdTokenCall "ext1",
          .findOneCall "u1", .saveCall "u1"] }
    ∧ ({ docOld with lastLoginAt := some 111 } : UserDoc).email ≠ some "new@example.com"
    ∧ ({ docOld with lastLoginAt := some 111 } : UserDoc).displayName ≠ some "New Name"
    ∧ ({ docOld with lastLoginAt := some 111 } : UserDoc).photoURL ≠ some "new.png" := by
  decide

/-- Claim C5 (amended): on a successful external-token login for a subject id
that already has an Account record, authenticateToken sets last-login to now
and persists the record, but leaves the stored email, display name and
avatar URL entirely unchanged — the fresh claims are never copied into the
record, whether they are nonempty or absent (the update consists solely of
the updateLastLogin call). -/
theorem C5_amended_last_login_only (env : Env) (store : Store) (h token : String)
    (jwtErr : JsError) (decoded : DecodedIdToken) (found : UserDoc)
    (hstart : jsStartsWith h "Bearer " = true)
    (hget : (jsSplit h "Bearer ")[1]? = some token)
    (htok : (token == "") = false)
    (hjwt : env.jwtVerify token = .error jwtErr)
    (hver : env.verifyIdToken token = .ok decoded)
    (hfo : storeFindOne env store decoded.uid = .ok (some found))
    (hsf : env.saveFault = none) :
    authenticateToken env store (some h) =
      { outcome := .proceed (.firebase decoded)
          (some { found with lastLoginAt := some env.now })
        store := { docs := store.docs.map (fun d =>
          if d.uid == found.uid then { found with lastLoginAt := some env.now } else d) }
        calls := [.jwtVerifyCall token, .verifyIdTokenCall token,
          .findOneCall decoded.uid, .saveCall found.uid] }
    ∧ ({ found with lastLoginAt := some env.now } : UserDoc).email = found.email
    ∧ ({ found with lastLoginAt := some env.now } : UserDoc).displayName = found.displayName
    ∧ ({ found with lastLoginAt := some env.now } : UserDoc).photoURL = found.photoURL := by
  refine ⟨?_, rfl, rfl, rfl⟩
  simp only [authenticateToken, hstart, hget, htok, hjwt]
  simp [authenticateTokenFirebaseFallback, hver, hfo, updateLastLogin, hsf]

/-- Witness for the amended claim C5 at the concrete fresh-claims run. -/
theorem C5_witness :
    (authenticateToken envFresh storeOld (some "Bearer ext1") =
      { outcome := .proceed (.firebase decodedFresh)
          (some { docOld with lastLoginAt := some 111 })
        store := { docs := [{ docOld with lastLoginAt := some 111 }] }
        calls := [.jwtVerifyCall "ext1", .verifyIdTokenCall "ext1",
          .findOneCall "u1", .saveCall "u1"] }
    ∧ ({ docOld with lastLoginAt := some 111 } : UserDoc).email = docOld.email
    ∧ ({ docOld with lastLoginAt := some 111 } : UserDoc).displayName = docOld.displayName
    ∧ ({ docOld with lastLoginAt := some 111 } : UserDoc).photoURL = docOld.photoURL) :=
  C5_amended_last_login_only envFresh storeOld "Bearer ext1" "ext1"
    { message := "jwt malformed" } decodedFresh
    docOld (by decide) (by decide) (by decide) rfl rfl rfl rfl

/-- A stored but deactivated user with the externally asserted subject id. -/
def docInactive : UserDoc :=
  { uid := "u1", email := some "old@example.com"
    displayName := some "Old Name", photoURL := some "old.png"
    role := UserRole.user, isActive := false, lastLoginAt := some 5 }

/-- A store holding only the deactivated user, so that the isActive-filtered
lookup misses while the unique index on uid still holds a conflicting
document: the subsequent save rejects with the duplicate-key error. -/
def storeInactive : Store := { docs := [docInactive] }

/-- Counterexample to claim C6: when the create/save of the external path
rejects with the duplicate-key condition (here because the subject id exists
as a deactivated document that the isActive-filtered lookup missed), the
middleware responds 401 INVALID_TOKEN — it performs no re-fetch (exactly one
findOne appears in the trace) and the login fails instead of completing as
an existing-user login. -/
theorem C6_counterexample :
    authenticateToken envFresh storeInactive (some "Bearer ext1") =
      { outcome := .respond 401 "INVALID_TOKEN" "Invalid or expired token"
        store := storeInactive
        calls := [.jwtVerifyCall "ext1", .verifyIdTokenCall "ext1",
          .findOneCall "u1", .saveCall "u1"] } := by
  decide

/-- Claim C6 (amended): when the store save of the external path rejects with
the duplicate-key condition, authenticateToken catches the rejection — the
raw duplicate-key error never reaches the caller — but it does not re-fetch
the existing record: it responds with the generic 401 INVALID_TOKEN of the
external catch, the login fails, and the store is left unchanged (the trace
shows a single findOne and the failed save, and no second lookup). -/
theorem C6_amended_duplicate_key_invalid_token (env : Env) (store : Store)
    (h token : String) (jwtErr : JsError) (decoded : DecodedIdToken)
    (hstart : jsStartsWith h "Bearer " = true)
    (hget : (jsSplit h "Bearer ")[1]? = some token)
    (htok : (token == "") = false)
    (hjwt : env.jwtVerify token = .error jwtErr)
    (hver : env.verifyIdToken token = .ok decoded)
    (hfo : storeFindOne env store decoded.uid = .ok none)
    (hdup : store.docs.any (fun d => d.uid == decoded.uid) = true)
    (hsf : env.saveFault = none) :
    authenticateToken env store (some h) =
      { outcome := .respond 401 "INVALID_TOKEN" "Invalid or expired token"
        store := store
        calls := [.jwtVerifyCall token, .verifyIdTokenCall token,
          .findOneCall decoded.uid, .saveCall decoded.uid] } := by
  simp only [authenticateToken, hstart, hget, htok, hjwt]
  simp [authenticateTokenFirebaseFallback, hver, hfo, storeSaveNew, hsf, newUserDoc, hdup]

/-- Witness for the amended claim C6 at the concrete duplicate-key run. -/
theorem C6_witness :
    authenticateToken envFresh storeInactive (some "Bearer ext1") =
      { outcome := .respond 401 "INVALID_TOKEN" "Invalid or expired token"
        store := storeInactive
        calls := [.jwtVerifyCall "ext1", .verifyIdTokenCall "ext1",
          .findOneCall "u1", .saveCall "u1"] } :=
  C6_amended_duplicate_key_invalid_token envFresh storeInactive "Bearer ext1" "ext1"
    { message := "jwt malformed" } decodedFresh
    (by decide) (by decide) (by decide) rfl rfl rfl (by decide) rfl

/-- Recognizer of a local jwt.verify call event. -/
def isJwtVerifyEv : CallEv → Bool
  | .jwtVerifyCall _ => true
  | _ => false

/-- Recognizer of a User-store call event (findOne or save). -/
def isStoreEv : CallEv → Bool
  | .findOneCall _ => true
  | .saveCall _ => true
  | _ => false

/-- The status and error code of a response outcome (none for proceed and
for the silent no-response). -/
def respKind : Outcome → Option (Nat × String)
  | .respond s e _ => some (s, e)
  | _ => none

/-- Does the header fail the shared parsing (absent, missing Bearer prefix,
or empty extracted token)? -/
def headerRejects (authHeader : Option String) : Bool :=
  match authHeader with
  | none => true
  | some h =>
    if !jsStartsWith h "Bearer " then true
    else
      match (jsSplit h "Bearer ")[1]? with
      | none => true
      | some token => token == ""

/-- Counterexample to claim C7: the legacy Express-API authenticateFirebaseUser
run on a valid external token for a previously unseen subject id reads the
Account store and writes a new Account into it (the trace holds a findOne and
a save, and the resulting store differs from the initial one), refuting the
part of the claim that says the legacy verifier never reads or writes the
Account store for any input. -/
theorem C7_counterexample :
    authenticateFirebaseUser envFresh emptyStore (some "Bearer ext1") =
      { outcome := .proceed (.firebase decodedFresh)
          (some (newUserDoc envFresh decodedFresh))
        store := { docs := [newUserDoc envFresh decodedFresh] }
        calls := [.verifyIdTokenCall "ext1", .findOneCall "u1", .saveCall "u1"] }
    ∧ (authenticateFirebaseUser envFresh emptyStore (some "Bearer ext1")).store
      ≠ emptyStore := by
  decide

/-- Claim C7 (amended): both variants of the legacy external-only verifier
authenticateFirebaseUser never attempt local-JWT verification (no jwt.verify
call ever appears in their traces) and perform the same header parsing as the
dual resolver (on every rejected header all three middlewares produce a
response of the same status and error code); the Firebase-Functions variant
never reads or writes the Account store and leaves it unchanged; but the
Express-API variant does read and conditionally write the Account store
(the same find-or-create synchronization as the dual resolver's external
path), and — unlike the dual resolver's external path, whose catch returns
INVALID_TOKEN unconditionally — it classifies caught errors by the
expired/invalid message substrings. -/
theorem C7_amended_legacy_contract (env : Env) (store : Store) (header : Option String) :
    (authenticateFirebaseUser env store header).calls.any isJwtVerifyEv = false
    ∧ (authenticateFirebaseUserFunctions env store header).calls.any isJwtVerifyEv = false
    ∧ (authenticateFirebaseUserFunctions env store header).calls.any isStoreEv = false
    ∧ (authenticateFirebaseUserFunctions env store header).store = store
    ∧ (headerRejects header = true →
        respKind (authenticateFirebaseUser env store header).outcome
          = respKind (authenticateToken env store header).outcome
        ∧ respKind (authenticateFirebaseUserFunctions env store header).outcome
          = respKind (authenticateToken env store header).outcome) := by
  refine ⟨?_, ?_, ?_, ?_, ?_⟩
  · rcases header with _ | h
    · simp [authenticateFirebaseUser]
    · cases hsw : jsStartsWith h "Bearer " with
      | false => simp [authenticateFirebaseUser, hsw]
      | true =>
        rcases hget : (jsSplit h "Bearer ")[1]? with _ | token
        · simp [authenticateFirebaseUser, hsw, hget]
        · cases hemp : token == "" with
          | true => simp [authenticateFirebaseUser, hsw, hget, hemp]
          | false =>
            rcases hver : env.verifyIdToken token with e | d
            · simp [authenticateFirebaseUser, hsw, hget, hemp, hver, isJwtVerifyEv]
            · rcases hfo : storeFindOne env store d.uid with e | o
              · simp [authenticateFirebaseUser, hsw, hget, hemp, hver, hfo, isJwtVerifyEv]
              · rcases o with _ | found
                · rcases hs : storeSaveNew env store (newUserDoc env d) with e | st2 <;>
                    simp [authenticateFirebaseUser, hsw, hget, hemp, hver, hfo, hs,
                      isJwtVerifyEv]
                · rcases hu : updateLastLogin env store found with e | p
                  · simp [authenticateFirebaseUser, hsw, hget, hemp, hver, hfo, hu,
                      isJwtVerifyEv]
                  · rcases p with ⟨up, st2⟩
                    simp [authenticateFirebaseUser, hsw, hget, hemp, hver, hfo, hu,
                      isJwtVerifyEv]
  · rcases header with _ | h
    · simp [authenticateFirebaseUserFunctions]
    · cases hsw : jsStartsWith h "Bearer " with
      | false => simp [authenticateFirebaseUserFunctions, hsw]
      | true =>
        rcases hget : (jsSplit h "Bearer ")[1]? with _ | token
        · simp [authenticateFirebaseUserFunctions, hsw, hget]
        · cases hemp : token == "" with
          | true => simp [authenticateFirebaseUserFunctions, hsw, hget, hemp]
          | false =>
            rcases hver : env.verifyIdToken token with e | d <;>
              simp [authenticateFirebaseUserFunctions, hsw, hget, hemp, hver, isJwtVerifyEv]
  · rcases header with _ | h
    · simp [authenticateFirebaseUserFunctions]
    · cases hsw : jsStartsWith h "Bearer " with
      | false => simp [authenticateFirebaseUserFunctions, hsw]
      | true =>
        rcases hget : (jsSplit h "Bearer ")[1]? with _ | token
        · simp [authenticateFirebaseUserFunctions, hsw, hget]
        · cases hemp : token == "" with
          | true => simp [authenticateFirebaseUserFunctions, hsw, hget, hemp]
          | false =>
            rcases hver : env.verifyIdToken token with e | d <;>
              simp [authenticateFirebaseUserFunctions, hsw, hget, hemp, hver, isStoreEv]
  · rcases header with _ | h
    · simp [authenticateFirebaseUserFunctions]
    · cases hsw : jsStartsWith h "Bearer " with
      | false => simp [authenticateFirebaseUserFunctions, hsw]
      | true =>
        rcases hget : (jsSplit h "Bearer ")[1]? with _ | token
        · simp [authenticateFirebaseUserFunctions, hsw, hget]
        · cases hemp : token == "" with
          | true => simp [authenticateFirebaseUserFunctions, hsw, hget, hemp]
          | false =>
            rcases hver : env.verifyIdToken token with e | d <;>
              simp [authenticateFirebaseUserFunctions, hsw, hget, hemp, hver]
  · intro hrej
    rcases header with _ | h
    · simp [authenticateFirebaseUser, authenticateFirebaseUserFunctions,
        authenticateToken, respKind]
    · cases hsw : jsStartsWith h "Bearer " with
      | false =>
        simp [authenticateFirebaseUser, authenticateFirebaseUserFunctions,
          authenticateToken, hsw, respKind]
      | true =>
        rcases hget : (jsSplit h "Bearer ")[1]? with _ | token
        · simp [authenticateFirebaseUser, authenticateFirebaseUserFunctions,
            authenticateToken, hsw, hget, respKind]
        · cases hemp : token == "" with
          | true =>
            simp [authenticateFirebaseUser, authenticateFirebaseUserFunctions,
              authenticateToken, hsw, hget, hemp, respKind]
          | false =>
            rw [headerRejects] at hrej
            simp [hsw, hget, hemp] at hrej

/-- Witness for the amended claim C7 at a concrete rejected header. -/
theorem C7_witness :
    (authenticateFirebaseUser envFresh emptyStore (some "nope")).calls.any isJwtVerifyEv = false
    ∧ (authenticateFirebaseUserFunctions envFresh emptyStore (some "nope")).calls.any
        isJwtVerifyEv = false
    ∧ (authenticateFirebaseUserFunctions envFresh emptyStore (some "nope")).calls.any
        isStoreEv = false
    ∧ (authenticateFirebaseUserFunctions envFresh emptyStore (some "nope")).store = emptyStore
    ∧ (respKind (authenticateFirebaseUser envFresh emptyStore (some "nope")).outcome
        = respKind (authenticateToken envFresh emptyStore (some "nope")).outcome
      ∧ respKind (authenticateFirebaseUserFunctions envFresh emptyStore (some "nope")).outcome
        = respKind (authenticateToken envFresh emptyStore (some "nope")).outcome) := by
  have h := C7_amended_legacy_contract envFresh emptyStore (some "nope")
  exact ⟨h.1, h.2.1, h.2.2.1, h.2.2.2.1, h.2.2.2.2 (by decide)⟩

/-- A uid absent from every stored document is not found by the
isActive-filtered lookup. -/
theorem find?_uid_none (docs : List UserDoc) (uid : String)
    (hnew : docs.all (fun d => !(d.uid == uid)) = true) :
    docs.find? (fun d => d.uid == uid && d.isActive) = none := by
  apply List.find?_eq_none.mpr
  intro d hd
  have hne := List.all_eq_true.mp hnew d hd
  simp at hne
  simp [hne]

/-- A uid absent from every stored document does not trip the duplicate-key
check. -/
theorem any_uid_false (docs : List UserDoc) (uid : String)
    (hnew : docs.all (fun d => !(d.uid == uid)) = true) :
    docs.any (fun d => d.uid == uid) = false := by
  apply List.any_eq_false.mpr
  intro d hd
  have hne := List.all_eq_true.mp hnew d hd
  simp at hne
  simp [hne]

/-- The uid-keyed replacement map leaves documents with other uids
unchanged. -/
theorem map_uid_id (docs : List UserDoc) (uid : String)
    (hnew : docs.all (fun d => !(d.uid == uid)) = true) {x : UserDoc} :
    docs.map (fun d => if d.uid == uid then x else d) = docs := by
  have hmap : docs.map (fun d => if d.uid == uid then x else d) = docs.map id := by
    apply List.map_congr_left
    intro d hd
    have hne := List.all_eq_true.mp hnew d hd
    simp at hne
    simp [hne]
  simpa using hmap

/-- A uid absent from every stored document has count zero. -/
theorem countP_uid_zero (docs : List UserDoc) (uid : String)
    (hnew : docs.all (fun d => !(d.uid == uid)) = true) :
    docs.countP (fun d => d.uid == uid) = 0 := by
  apply List.countP_eq_zero.mpr
  intro d hd
  have hne := List.all_eq_true.mp hnew d hd
  simpa using hne

/-- Claim C8: two sequential runs of authenticateToken with the same valid
external token for a previously unseen subject id leave exactly one Account
record for that subject id: the first run appends the freshly created user to
the store (count one), and the second run finds that user and only sets its
last-login timestamp to the second run's now, creating no duplicate (count
still one). -/
theorem C8_idempotent_single_account (env env2 : Env) (store : Store) (h token : String)
    (jwtErr jwtErr2 : JsError) (decoded : DecodedIdToken)
    (hstart : jsStartsWith h "Bearer " = true)
    (hget : (jsSplit h "Bearer ")[1]? = some token)
    (htok : (token == "") = false)
    (hjwt : env.jwtVerify token = .error jwtErr)
    (hver : env.verifyIdToken token = .ok decoded)
    (hff : env.findOneFault = none)
    (hsf : env.saveFault = none)
    (hjwt2 : env2.jwtVerify token = .error jwtErr2)
    (hver2 : env2.verifyIdToken token = .ok decoded)
    (hff2 : env2.findOneFault = none)
    (hsf2 : env2.saveFault = none)
    (hnew : store.docs.all (fun d => !(d.uid == decoded.uid)) = true) :
    (authenticateToken env store (some h)).store
        = { docs := store.docs ++ [newUserDoc env decoded] }
    ∧ (authenticateToken env store (some h)).store.docs.countP
        (fun d => d.uid == decoded.uid) = 1
    ∧ authenticateToken env2 (authenticateToken env store (some h)).store (some h)
        = { outcome := .proceed (.firebase decoded)
              (some { newUserDoc env decoded with lastLoginAt := some env2.now })
            store := { docs := store.docs
              ++ [{ newUserDoc env decoded with lastLoginAt := some env2.now }] }
            calls := [.jwtVerifyCall token, .verifyIdTokenCall token,
              .findOneCall decoded.uid, .saveCall decoded.uid] }
    ∧ (authenticateToken env2 (authenticateToken env store (some h)).store
        (some h)).store.docs.countP (fun d => d.uid == decoded.uid) = 1 := by
  have hfo1 : storeFindOne env store decoded.uid = .ok none := by
    unfold storeFindOne
    rw [hff]
    simp [find?_uid_none store.docs decoded.uid hnew]
  have hs1 : storeSaveNew env store (newUserDoc env decoded)
      = .ok { docs := store.docs ++ [newUserDoc env decoded] } := by
    unfold storeSaveNew
    rw [hsf]
    simp [newUserDoc, any_uid_false store.docs decoded.uid hnew]
  have step1 : authenticateToken env store (some h)
      = { outcome := .proceed (.firebase decoded) (some (newUserDoc env decoded))
          store := { docs := store.docs ++ [newUserDoc env decoded] }
          calls := [.jwtVerifyCall token, .verifyIdTokenCall token,
            .findOneCall decoded.uid, .saveCall decoded.uid] } := by
    simp only [authenticateToken, hstart, hget, htok, hjwt]
    simp [authenticateTokenFirebaseFallback, hver, hfo1, hs1]
  have store1eq : (authenticateToken env store (some h)).store
      = { docs := store.docs ++ [newUserDoc env decoded] } := by
    rw [step1]
  have hfo2 : storeFindOne env2 { docs := store.docs ++ [newUserDoc env decoded] }
        decoded.uid = .ok (some (newUserDoc env decoded)) := by
    unfold storeFindOne
    rw [hff2]
    simp only [Except.ok.injEq]
    rw [List.find?_append, find?_uid_none store.docs decoded.uid hnew]
    simp [newUserDoc]
  have hu2 : updateLastLogin env2 { docs := store.docs ++ [newUserDoc env decoded] }
        (newUserDoc env decoded)
      = .ok ({ newUserDoc env decoded with lastLoginAt := some env2.now },
          { docs := store.docs
            ++ [{ newUserDoc env decoded with lastLoginAt := some env2.now }] }) := by
    unfold updateLastLogin
    rw [hsf2]
    simp only [newUserDoc, List.map_append, Except.ok.injEq, Prod.mk.injEq]
    refine ⟨by trivial, ?_⟩
    rw [map_uid_id store.docs decoded.uid hnew]
    simp
  have step2 : authenticateToken env2 { docs := store.docs ++ [newUserDoc env decoded] }
        (some h)
      = { outcome := .proceed (.firebase decoded)
            (some { newUserDoc env decoded with lastLoginAt := some env2.now })
          store := { docs := store.docs
            ++ [{ newUserDoc env decoded with lastLoginAt := some env2.now }] }
          calls := [.jwtVerifyCall token, .verifyIdTokenCall token,
            .findOneCall decoded.uid, .saveCall decoded.uid] } := by
    have huid : (newUserDoc env decoded).uid = decoded.uid := rfl
    simp only [authenticateToken, hstart, hget, htok, hjwt2]
    simp [authenticateTokenFirebaseFallback, hver2, hfo2, hu2, huid]
  have hc1 : (store.docs ++ [newUserDoc env decoded]).countP
      (fun d => d.uid == decoded.uid) = 1 := by
    rw [List.countP_append, countP_uid_zero store.docs decoded.uid hnew]
    simp [List.countP_cons, newUserDoc]
  have hc2 : (store.docs
        ++ [({ newUserDoc env decoded with lastLoginAt := some env2.now } : UserDoc)]).countP
      (fun d => d.uid == decoded.uid) = 1 := by
    rw [List.countP_append, countP_uid_zero store.docs decoded.uid hnew]
    simp [List.countP_cons, newUserDoc]
  refine ⟨store1eq, ?_, ?_, ?_⟩
  · rw [store1eq]
    exact hc1
  · rw [store1eq]
    exact step2
  · rw [store1eq, step2]
    exact hc2

/-- The fresh-claims environment at a later time, for the second login. -/
def envFreshLater : Env := { envFresh with now := 222 }

/-- Witness for claim C8 at two concrete sequential logins of the unseen
subject u1 against the empty store. -/
theorem C8_witness :
    (authenticateToken envFresh emptyStore (some "Bearer ext1")).store
        = { docs := emptyStore.docs ++ [newUserDoc envFresh decodedFresh] }
    ∧ (authenticateToken envFresh emptyStore (some "Bearer ext1")).store.docs.countP
        (fun d => d.uid == decodedFresh.uid) = 1
    ∧ authenticateToken envFreshLater
        (authenticateToken envFresh emptyStore (some "Bearer ext1")).store
        (some "Bearer ext1")
        = { outcome := .proceed (.firebase decodedFresh)
              (some { newUserDoc envFresh decodedFresh with
                lastLoginAt := some envFreshLater.now })
            store := { docs := emptyStore.docs
              ++ [({ newUserDoc envFresh decodedFresh with
                lastLoginAt := some envFreshLater.now } : UserDoc)] }
            calls := [.jwtVerifyCall "ext1", .verifyIdTokenCall "ext1",
              .findOneCall decodedFresh.uid, .saveCall decodedFresh.uid] }
    ∧ (authenticateToken envFreshLater
        (authenticateToken envFresh emptyStore (some "Bearer ext1")).store
        (some "Bearer ext1")).store.docs.countP
        (fun d => d.uid == decodedFresh.uid) = 1 :=
  C8_idempotent_single_account envFresh envFreshLater emptyStore "Bearer ext1" "ext1"
    { message := "jwt malformed" } { message := "jwt malformed" } decodedFresh
    (by decide) (by decide) (by decide) rfl rfl rfl rfl rfl rfl rfl rfl (by decide)
